import Mathlib

/-!
# SEP-10 web authentication server: start-up wiring (package serve)

A shallow embedding of `exp/services/webauth/internal/serve/serve.go`:
the `Options` record, `handler` (key parsing, Horizon client set-up, route
registration) and `Serve` (fatal log or server start).  Calls into other
packages are recorded as data: the router is a registration table, `Serve`
returns the list of effects it performs.
-/

set_option maxRecDepth 8192

namespace Webauth

/-! ## Go values used by serve.go -/

/-- Go error value: either an error produced by a callee, or the result of
`errors.Wrap(cause, msg)`. -/
inductive GoError where
  | leaf (msg : String)
  | wrap (cause : GoError) (msg : String)
deriving DecidableEq, Repr

/-- Text of an error (method `Error()`): a wrapped error prints its message,
a colon and the text of its cause. -/
def GoError.Error : GoError → String
  | .leaf msg => msg
  | .wrap cause msg => msg ++ ": " ++ cause.Error

/-- Modelled from the spec: `errors.Wrap` of package support/errors, which
serve.go calls but which is not among the sources.  A nil error stays nil, a
non-nil error becomes a new error that keeps the cause and adds the message. -/
def Wrap (err : Option GoError) (message : String) : Option GoError :=
  match err with
  | none => none
  | some e => some (.wrap e message)

/-- Operand of a formatting call. -/
inductive FmtArg where
  | int (n : Int)
  | str (s : String)
  | err (e : GoError)
deriving DecidableEq, Repr

/-- Default rendering of an operand: integers in decimal (with a leading minus
sign when negative), strings as they are, errors by their `Error()` text. -/
def FmtArg.render : FmtArg → String
  | .int n => toString n
  | .str s => s
  | .err e => e.Error

/-- Worker of `Sprintf` over the characters of the format. -/
def SprintfAux : List Char → List FmtArg → String
  | [], _ => ""
  | [c], _ => String.singleton c
  | c :: v :: rest, args =>
    if c = '%' ∧ (v = 'd' ∨ v = 's' ∨ v = 'v') then
      match args with
      | a :: args => a.render ++ SprintfAux rest args
      | [] => "%!" ++ String.singleton v ++ "(MISSING)" ++ SprintfAux rest []
    else String.singleton c ++ SprintfAux (v :: rest) args

/-- The fragment of `fmt.Sprintf` that serve.go uses: the verbs `%d`, `%s` and
`%v` consume one operand each and print its default rendering, every other
character of the format is copied. -/
def Sprintf (format : String) (args : List FmtArg) : String :=
  SprintfAux format.toList args

/-- Conversion `uint(x)` of a 64-bit signed value: reduction modulo `2^64`. -/
def uint (x : Int) : Nat := (x % 2 ^ 64).toNat

/-! ## Imported packages -/

/-- Modelled from the spec: the packages keypair, jwtkey and horizonclient are
imported by serve.go but are not among the sources, so their types, functions
and constant are parameters.  `ParseFull` is `keypair.ParseFull` ("server
signing key (must parse to a usable keypair)"), `Address` is the method
`FromAddress` of a full keypair, `PrivateKeyFromString` is
`jwtkey.PrivateKeyFromString` ("token-signing key") and `HorizonTimeOut` is the
constant `horizonclient.HorizonTimeOut`, a `time.Duration`. -/
structure Env where
  Full : Type
  FromAddress : Type
  PrivateKey : Type
  ParseFull : String → Except GoError Full
  Address : Full → FromAddress
  PrivateKeyFromString : String → Except GoError PrivateKey
  HorizonTimeOut : Int

/-- Value of type `http.Client`; only the field serve.go sets. -/
structure HttpClient where
  Timeout : Int
deriving DecidableEq, Repr

/-- Modelled from the spec: `horizonclient.Client`, the ledger-query
collaborator, which "must support a caller-supplied timeout".  The two public
fields are the ones serve.go fills in; `horizonTimeOut` is the timeout the
caller supplied, zero until one is set. -/
structure HorizonClient where
  HorizonURL : String
  HTTP : HttpClient
  horizonTimeOut : Nat
deriving DecidableEq, Repr

/-- Modelled from the spec: method `SetHorizonTimeOut(t uint)` of
`horizonclient.Client`, not among the sources; it records the caller-supplied
timeout in the client. -/
def HorizonClient.SetHorizonTimeOut (c : HorizonClient) (t : Nat) : HorizonClient :=
  { c with horizonTimeOut := t }

/-! ## Package serve -/

/-- Start-up configuration (`type Options struct`).  `Logger` is the pointer to
the log entry, `Port` a Go `int`, the two `…ExpiresIn` fields are
`time.Duration` values (signed nanosecond counts). -/
structure Options where
  Logger : Nat
  HorizonURL : String
  Port : Int
  NetworkPassphrase : String
  SigningKey : String
  ChallengeExpiresIn : Int
  JWTPrivateKey : String
  JWTExpiresIn : Int
deriving DecidableEq, Repr

/-- Composite literal `challengeHandler{...}` as written in `handler`. -/
structure challengeHandler (env : Env) where
  Logger : Nat
  NetworkPassphrase : String
  SigningKey : env.Full
  ChallengeExpiresIn : Int

/-- Composite literal `tokenHandler{...}` as written in `handler`. -/
structure tokenHandler (env : Env) where
  Logger : Nat
  HorizonClient : HorizonClient
  NetworkPassphrase : String
  SigningAddress : env.FromAddress
  JWTPrivateKey : env.PrivateKey
  JWTExpiresIn : Int

/-- Modelled from the spec: the two package-level error values that `handler`
names, `notFound` and `methodNotAllowed`; their declarations are not among the
sources. -/
inductive httpError where
  | notFound
  | methodNotAllowed
deriving DecidableEq, Repr

/-- Composite literal `errorHandler{Error: ...}`. -/
structure errorHandler where
  Error : httpError
deriving DecidableEq, Repr

/-- A method value `x.ServeHTTP` handed to the router, tagged by the type of
its receiver. -/
inductive HandlerFunc (env : Env) where
  | challenge (h : challengeHandler env)
  | token (h : tokenHandler env)
  | error (h : errorHandler)

/-- One registration: HTTP method, path pattern and the handler. -/
structure Route (env : Env) where
  method : String
  pattern : String
  handler : HandlerFunc env

/-- Modelled from the spec: the router returned by `supporthttp.NewAPIMux`
("the HTTP transport and routing layer" is an external collaborator).  It is
the table of what was registered: the handler for unknown paths, the handler
for known paths under another method (`none` while the library default is in
place) and the routes in registration order. -/
structure Mux (env : Env) where
  notFoundHandler : Option (HandlerFunc env)
  methodNotAllowedHandler : Option (HandlerFunc env)
  routes : List (Route env)

/-- Modelled from the spec: `supporthttp.NewAPIMux()`, a router with nothing
registered. -/
def NewAPIMux (env : Env) : Mux env :=
  { notFoundHandler := none, methodNotAllowedHandler := none, routes := [] }

/-- Modelled from the spec: `mux.NotFound(h)` installs the handler for paths
that match no route. -/
def Mux.NotFound {env : Env} (mux : Mux env) (h : HandlerFunc env) : Mux env :=
  { mux with notFoundHandler := some h }

/-- Modelled from the spec: `mux.MethodNotAllowed(h)` installs the handler for
paths that match a route under another method only. -/
def Mux.MethodNotAllowed {env : Env} (mux : Mux env) (h : HandlerFunc env) : Mux env :=
  { mux with methodNotAllowedHandler := some h }

/-- Modelled from the spec: registration of a handler for a method and a
pattern in the router, common to `Get` and `Post`; a later registration of the
same method and pattern replaces the earlier one. -/
def Mux.handle {env : Env} (mux : Mux env) (method pattern : String)
    (h : HandlerFunc env) : Mux env :=
  { mux with
    routes := mux.routes.filter (fun r => !(r.method == method && r.pattern == pattern))
      ++ [{ method := method, pattern := pattern, handler := h }] }

/-- Modelled from the spec: `mux.Get(pattern, h)` registers the handler for
"a GET challenge request". -/
def Mux.Get {env : Env} (mux : Mux env) (pattern : String) (h : HandlerFunc env) : Mux env :=
  mux.handle "GET" pattern h

/-- Modelled from the spec: `mux.Post(pattern, h)` registers the handler for
"the later POST verification". -/
def Mux.Post {env : Env} (mux : Mux env) (pattern : String) (h : HandlerFunc env) : Mux env :=
  mux.handle "POST" pattern h

/-- The function `handler` of serve.go.  The Go result pair
`(http.Handler, error)` is a pair of options, `none` standing for `nil`. -/
def handler (env : Env) (opts : Options) : Option (Mux env) × Option GoError :=
  match env.ParseFull opts.SigningKey with
  | .error err => (none, Wrap (some err) "parsing signing key seed")
  | .ok signingKey =>
    match env.PrivateKeyFromString opts.JWTPrivateKey with
    | .error err => (none, Wrap (some err) "parsing JWT private key")
    | .ok jwtPrivateKey =>
      let httpClient : HttpClient := { Timeout := env.HorizonTimeOut }
      let horizonClient : HorizonClient :=
        { HorizonURL := opts.HorizonURL, HTTP := httpClient, horizonTimeOut := 0 }
      let horizonClient := horizonClient.SetHorizonTimeOut (uint env.HorizonTimeOut)
      let mux := NewAPIMux env
      let mux := mux.NotFound (.error { Error := .notFound })
      let mux := mux.MethodNotAllowed (.error { Error := .methodNotAllowed })
      let mux := mux.Get "/" (.challenge
        { Logger := opts.Logger
          NetworkPassphrase := opts.NetworkPassphrase
          SigningKey := signingKey
          ChallengeExpiresIn := opts.ChallengeExpiresIn })
      let mux := mux.Post "/" (.token
        { Logger := opts.Logger
          HorizonClient := horizonClient
          NetworkPassphrase := opts.NetworkPassphrase
          SigningAddress := env.Address signingKey
          JWTPrivateKey := jwtPrivateKey
          JWTExpiresIn := opts.JWTExpiresIn })
      (some mux, none)

/-- A call on the logger: receiver, format or message, operands. -/
inductive LogCall where
  | Fatalf (logger : Nat) (format : String) (args : List FmtArg)
  | Info (logger : Nat) (msg : String)
  | Infof (logger : Nat) (format : String) (args : List FmtArg)
deriving DecidableEq, Repr

/-- Line written by a log call. -/
def LogCall.text : LogCall → String
  | .Fatalf _ format args => Sprintf format args
  | .Info _ msg => msg
  | .Infof _ format args => Sprintf format args

/-- Literal `supporthttp.Config{...}` as written in `Serve`.  `OnStarting` is
the body of the closure: the log calls it makes when the server invokes it. -/
structure Config (env : Env) where
  ListenAddr : String
  Handler : Option (Mux env)
  OnStarting : List LogCall

/-- What `Serve` does to the outside world. -/
inductive Effect (env : Env) where
  | log (call : LogCall)
  | Run (conf : Config env)

/-- The function `Serve` of serve.go, as the list of effects it performs, in
order. -/
def Serve (env : Env) (opts : Options) : List (Effect env) :=
  match handler env opts with
  | (_, some err) => [.log (.Fatalf opts.Logger "Error: %v" [.err err])]
  | (h, none) =>
    let addr := Sprintf ":%d" [.int opts.Port]
    [.Run
      { ListenAddr := addr
        Handler := h
        OnStarting :=
          [ .Info opts.Logger "Starting SEP-10 Web Authentication Server",
            .Infof opts.Logger "Listening on %s" [.str addr] ] }]

/-- Whether an effect is a start of the HTTP server. -/
def Effect.isRun {env : Env} : Effect env → Bool
  | .Run _ => true
  | .log _ => false

/-- A sample instantiation of the imported packages, for running the
definitions on concrete inputs: keypairs are represented by their seed, it
knows one seed with its address and one private key, and rejects every other
string.  The timeout constant is 60. -/
def sampleEnv : Env where
  Full := String
  FromAddress := String
  PrivateKey := String
  ParseFull s :=
    if s = "SBFGFF27Y64ZUGFAIG5AMJGQODZZKV2YQKAVUUN4HNE24XZXD2OEUVUP" then .ok s
    else .error (.leaf "invalid seed")
  Address _ := "GAYUB4KATGTUZEGUMJEOZDPPWM4MQLHCIKC4T55YSXHN234WI6BJMIY2"
  PrivateKeyFromString s :=
    if s = "MHcCAQEEIMrc64lb4SNwqfysLlxFHvNHIBVJtPnK63CGxyrpJw9yoAoGCCqGSM49AwEHoUQDQgAEzU08jAMkMTxkYHQ9HgzCMR8tuLQu8hFW1Y8Zw7SmAnOF64OAl8Zd/IXLVFDVkPZyq+6Otp/LVVmDpnEVAZeLJg==" then .ok s
    else .error (.leaf "invalid private key")
  HorizonTimeOut := 60

/-- Sample options: both keys are the ones `sampleEnv` knows, port 8000, a
five-minute challenge and a five-minute token. -/
def sampleOpts : Options :=
  { Logger := 1
    HorizonURL := "https://horizon-testnet.stellar.org"
    Port := 8000
    NetworkPassphrase := "Test SDF Network ; September 2015"
    SigningKey := "SBFGFF27Y64ZUGFAIG5AMJGQODZZKV2YQKAVUUN4HNE24XZXD2OEUVUP"
    ChallengeExpiresIn := 300000000000
    JWTPrivateKey := "MHcCAQEEIMrc64lb4SNwqfysLlxFHvNHIBVJtPnK63CGxyrpJw9yoAoGCCqGSM49AwEHoUQDQgAEzU08jAMkMTxkYHQ9HgzCMR8tuLQu8hFW1Y8Zw7SmAnOF64OAl8Zd/IXLVFDVkPZyq+6Otp/LVVmDpnEVAZeLJg=="
    JWTExpiresIn := 300000000000 }

/-- Sample options with both keys valid and both durations negative (minus
one nanosecond). -/
def negativeDurationOpts : Options :=
  { sampleOpts with ChallengeExpiresIn := -1, JWTExpiresIn := -1 }

/-! ## Shared lemmas -/

theorem Sprintf_port (p : Int) : Sprintf ":%d" [.int p] = ":" ++ toString p := by
  simp [Sprintf, SprintfAux, FmtArg.render]
  rfl

/-- The decimal rendering of an integer: the digits of a natural number, and
a minus sign followed by the digits of the absolute value below zero. -/
theorem listen_addr_digits (n : Nat) :
    ":" ++ toString (n : Int) = ":" ++ Nat.repr n ∧
    ":" ++ toString (-((n : Int) + 1)) = ":-" ++ Nat.repr (n + 1) := by
  refine ⟨rfl, ?_⟩
  rw [← Int.negSucc_eq]
  apply String.ext
  simp [toString, instToStringInt]

theorem Sprintf_listening (addr : String) :
    Sprintf "Listening on %s" [.str addr] = "Listening on " ++ addr := by
  have hfmt : "Listening on %s".toList =
      ['L', 'i', 's', 't', 'e', 'n', 'i', 'n', 'g', ' ', 'o', 'n', ' ', '%', 's'] := by decide
  apply String.ext
  simp [Sprintf, hfmt, SprintfAux, FmtArg.render, String.singleton]

/-- When the signing key does not parse, `handler` stops there. -/
theorem handler_of_signing_error (env : Env) (opts : Options) {e : GoError}
    (h : env.ParseFull opts.SigningKey = .error e) :
    handler env opts = (none, some (.wrap e "parsing signing key seed")) := by
  simp [handler, h, Wrap]

/-- When the signing key parses and the JWT key does not, `handler` stops at
the second check. -/
theorem handler_of_jwt_error (env : Env) (opts : Options) {kp : env.Full} {e : GoError}
    (h1 : env.ParseFull opts.SigningKey = .ok kp)
    (h2 : env.PrivateKeyFromString opts.JWTPrivateKey = .error e) :
    handler env opts = (none, some (.wrap e "parsing JWT private key")) := by
  simp [handler, h1, h2, Wrap]

/-- When both keys parse, `handler` returns the router with the two error
handlers installed and exactly the two routes on "/". -/
theorem handler_of_keys (env : Env) (opts : Options) {kp : env.Full} {k : env.PrivateKey}
    (h1 : env.ParseFull opts.SigningKey = .ok kp)
    (h2 : env.PrivateKeyFromString opts.JWTPrivateKey = .ok k) :
    handler env opts =
      (some
        { notFoundHandler := some (.error { Error := .notFound })
          methodNotAllowedHandler := some (.error { Error := .methodNotAllowed })
          routes :=
            [ { method := "GET", pattern := "/", handler := .challenge
                  { Logger := opts.Logger
                    NetworkPassphrase := opts.NetworkPassphrase
                    SigningKey := kp
                    ChallengeExpiresIn := opts.ChallengeExpiresIn } },
              { method := "POST", pattern := "/", handler := .token
                  { Logger := opts.Logger
                    HorizonClient :=
                      { HorizonURL := opts.HorizonURL
                        HTTP := { Timeout := env.HorizonTimeOut }
                        horizonTimeOut := uint env.HorizonTimeOut }
                    NetworkPassphrase := opts.NetworkPassphrase
                    SigningAddress := env.Address kp
                    JWTPrivateKey := k
                    JWTExpiresIn := opts.JWTExpiresIn } } ] }, none) := by
  simp [handler, h1, h2, NewAPIMux, Mux.NotFound, Mux.MethodNotAllowed, Mux.Get, Mux.Post,
    Mux.handle, HorizonClient.SetHorizonTimeOut]

/-- A nil error from `handler` means both keys parsed. -/
theorem keys_of_handler_ok {env : Env} {opts : Options}
    (h : (handler env opts).2 = none) :
    ∃ kp k, env.ParseFull opts.SigningKey = .ok kp ∧
      env.PrivateKeyFromString opts.JWTPrivateKey = .ok k := by
  cases h1 : env.ParseFull opts.SigningKey with
  | error e => rw [handler_of_signing_error env opts h1] at h; simp at h
  | ok kp =>
    cases h2 : env.PrivateKeyFromString opts.JWTPrivateKey with
    | error e => rw [handler_of_jwt_error env opts h1 h2] at h; simp at h
    | ok k => exact ⟨kp, k, rfl, rfl⟩

/-- The effects of `Serve` when `handler` returned the error `err`. -/
theorem Serve_of_error {env : Env} {opts : Options} {err : GoError}
    (h : (handler env opts).2 = some err) :
    Serve env opts = [.log (.Fatalf opts.Logger "Error: %v" [.err err])] := by
  unfold Serve
  split
  · next _ e heq => rw [heq] at h; simp at h; simp [h]
  · next _ heq => rw [heq] at h; simp at h

/-- The effects of `Serve` when `handler` returned a nil error. -/
theorem Serve_of_ok (env : Env) (opts : Options)
    (h : (handler env opts).2 = none) :
    Serve env opts =
      [.Run
        { ListenAddr := ":" ++ toString opts.Port
          Handler := (handler env opts).1
          OnStarting :=
            [ .Info opts.Logger "Starting SEP-10 Web Authentication Server",
              .Infof opts.Logger "Listening on %s" [.str (":" ++ toString opts.Port)] ] }] := by
  unfold Serve
  split
  · next _ e heq => rw [heq] at h; simp at h
  · next _ heq => simp [heq, Sprintf_port]

/-- The error result of `handler` is non-nil exactly when one of the two keys
is rejected. -/
theorem handler_error_iff {env : Env} (opts : Options) :
    (handler env opts).2 ≠ none ↔
      ((∃ e, env.ParseFull opts.SigningKey = .error e) ∨
       (∃ e, env.PrivateKeyFromString opts.JWTPrivateKey = .error e)) := by
  constructor
  · intro h
    cases h1 : env.ParseFull opts.SigningKey with
    | error e => exact Or.inl ⟨e, rfl⟩
    | ok kp =>
      cases h2 : env.PrivateKeyFromString opts.JWTPrivateKey with
      | error e => exact Or.inr ⟨e, rfl⟩
      | ok k => rw [handler_of_keys env opts h1 h2] at h; simp at h
  · intro h hnone
    obtain ⟨kp, k, h1, h2⟩ := keys_of_handler_ok hnone
    rcases h with ⟨e, he⟩ | ⟨e, he⟩
    · rw [h1] at he; cases he
    · rw [h2] at he; cases he

/-! ## The claims -/

/-- C1: when `keypair.ParseFull` rejects `opts.SigningKey` with error `e`,
`handler` returns a nil handler and the non-nil error
`errors.Wrap(e, "parsing signing key seed")`; the same holds with any other
`JWTPrivateKey` in place of the given one, valid or not. -/
theorem handler_signing_key_invalid (env : Env) (opts : Options) (e : GoError)
    (h : env.ParseFull opts.SigningKey = .error e) :
    handler env opts = (none, some (.wrap e "parsing signing key seed")) ∧
    (handler env opts).2 ≠ none ∧
    ∀ jwt : String, handler env { opts with JWTPrivateKey := jwt } =
      (none, some (.wrap e "parsing signing key seed")) := by
  refine ⟨handler_of_signing_error env opts h, ?_, fun jwt => ?_⟩
  · rw [handler_of_signing_error env opts h]; simp
  · exact handler_of_signing_error env
          { opts with JWTPrivateKey := jwt } h

/-- Witness for C1: an empty signing key together with an empty JWT key. -/
theorem handler_signing_key_invalid_witness :
    sampleEnv.ParseFull ({ sampleOpts with SigningKey := "", JWTPrivateKey := "" } : Options).SigningKey
      = .error (.leaf "invalid seed") ∧
    handler sampleEnv { sampleOpts with SigningKey := "", JWTPrivateKey := "" } =
      (none, some (.wrap (.leaf "invalid seed") "parsing signing key seed")) :=
  ⟨rfl, (handler_signing_key_invalid sampleEnv
    { sampleOpts with SigningKey := "", JWTPrivateKey := "" } (.leaf "invalid seed") rfl).1⟩

/-- C2: when `opts.SigningKey` parses and `jwtkey.PrivateKeyFromString`
rejects `opts.JWTPrivateKey` with error `e`, `handler` returns a nil handler
(so no router and no route) and the non-nil error
`errors.Wrap(e, "parsing JWT private key")`. -/
theorem handler_jwt_key_invalid (env : Env) (opts : Options) (kp : env.Full) (e : GoError)
    (h1 : env.ParseFull opts.SigningKey = .ok kp)
    (h2 : env.PrivateKeyFromString opts.JWTPrivateKey = .error e) :
    handler env opts = (none, some (.wrap e "parsing JWT private key")) ∧
    (handler env opts).1 = none ∧ (handler env opts).2 ≠ none := by
  rw [handler_of_jwt_error env opts h1 h2]; simp

/-- Witness for C2: the sample seed with an empty JWT key. -/
theorem handler_jwt_key_invalid_witness :
    handler sampleEnv { sampleOpts with JWTPrivateKey := "" } =
      (none, some (.wrap (.leaf "invalid private key") "parsing JWT private key")) :=
  (handler_jwt_key_invalid sampleEnv { sampleOpts with JWTPrivateKey := "" }
    "SBFGFF27Y64ZUGFAIG5AMJGQODZZKV2YQKAVUUN4HNE24XZXD2OEUVUP"
    (.leaf "invalid private key") rfl rfl).1

/-- C3: when `handler` returns the error `err`, the only effect of `Serve` is
the call `opts.Logger.Fatalf("Error: %v", err)`, whose text is "Error: "
followed by the text of `err`; no effect of `Serve` is a call of
`supporthttp.Run`. -/
theorem Serve_handler_error_is_fatal (env : Env) (opts : Options) (err : GoError)
    (h : (handler env opts).2 = some err) :
    Serve env opts = [.log (.Fatalf opts.Logger "Error: %v" [.err err])] ∧
    (LogCall.Fatalf opts.Logger "Error: %v" [.err err]).text = "Error: " ++ err.Error ∧
    ∀ eff ∈ Serve env opts, eff.isRun = false := by
  refine ⟨Serve_of_error h, ?_, ?_⟩
  · have hfmt : "Error: %v".toList = ['E', 'r', 'r', 'o', 'r', ':', ' ', '%', 'v'] := by decide
    apply String.ext
    simp [LogCall.text, Sprintf, hfmt, SprintfAux, FmtArg.render, String.singleton]
  · intro eff heff
    rw [Serve_of_error h] at heff
    simp at heff
    subst heff
    rfl

/-- Witness for C3: an empty signing key. -/
theorem Serve_handler_error_is_fatal_witness :
    Serve sampleEnv { sampleOpts with SigningKey := "" } =
      [.log (.Fatalf 1 "Error: %v"
        [.err (.wrap (.leaf "invalid seed") "parsing signing key seed")])] :=
  (Serve_handler_error_is_fatal sampleEnv { sampleOpts with SigningKey := "" }
    (.wrap (.leaf "invalid seed") "parsing signing key seed") rfl).1

/-- C5: when `handler` succeeds, the router holds exactly a challenge handler
and a token handler; the challenge handler's `SigningKey` is the keypair that
`keypair.ParseFull(opts.SigningKey)` returned, and the token handler's
`SigningAddress` is the address of that same keypair. -/
theorem signing_address_of_signing_key (env : Env) (opts : Options)
    (h : (handler env opts).2 = none) :
    ∃ mux ch th, (handler env opts).1 = some mux ∧
      mux.routes = [ { method := "GET", pattern := "/", handler := .challenge ch },
                     { method := "POST", pattern := "/", handler := .token th } ] ∧
      env.ParseFull opts.SigningKey = .ok ch.SigningKey ∧
      th.SigningAddress = env.Address ch.SigningKey := by
  obtain ⟨kp, k, h1, h2⟩ := keys_of_handler_ok h
  rw [handler_of_keys env opts h1 h2]
  exact ⟨_, _, _, rfl, rfl, h1, rfl⟩

/-- Witness for C5: the sample options. -/
theorem signing_address_of_signing_key_witness :
    ∃ mux ch th, (handler sampleEnv sampleOpts).1 = some mux ∧
      mux.routes = [ { method := "GET", pattern := "/", handler := .challenge ch },
                     { method := "POST", pattern := "/", handler := .token th } ] ∧
      sampleEnv.ParseFull sampleOpts.SigningKey = .ok ch.SigningKey ∧
      th.SigningAddress = sampleEnv.Address ch.SigningKey :=
  signing_address_of_signing_key sampleEnv sampleOpts rfl

/-- C6: when `handler` succeeds, the challenge handler holds
`opts.NetworkPassphrase` and `opts.ChallengeExpiresIn`, the token handler holds
`opts.NetworkPassphrase` and `opts.JWTExpiresIn`, so the two handlers hold the
same network passphrase. -/
theorem options_reach_handlers (env : Env) (opts : Options)
    (h : (handler env opts).2 = none) :
    ∃ mux ch th, (handler env opts).1 = some mux ∧
      mux.routes = [ { method := "GET", pattern := "/", handler := .challenge ch },
                     { method := "POST", pattern := "/", handler := .token th } ] ∧
      ch.NetworkPassphrase = opts.NetworkPassphrase ∧
      ch.ChallengeExpiresIn = opts.ChallengeExpiresIn ∧
      th.NetworkPassphrase = opts.NetworkPassphrase ∧
      th.JWTExpiresIn = opts.JWTExpiresIn ∧
      ch.NetworkPassphrase = th.NetworkPassphrase := by
  obtain ⟨kp, k, h1, h2⟩ := keys_of_handler_ok h
  rw [handler_of_keys env opts h1 h2]
  exact ⟨_, _, _, rfl, rfl, rfl, rfl, rfl, rfl, rfl⟩

/-- Witness for C6: the sample options with a ten-minute token, so that the
two durations differ. -/
theorem options_reach_handlers_witness :
    ∃ mux ch th, (handler sampleEnv { sampleOpts with JWTExpiresIn := 600000000000 }).1 = some mux ∧
      mux.routes = [ { method := "GET", pattern := "/", handler := .challenge ch },
                     { method := "POST", pattern := "/", handler := .token th } ] ∧
      ch.NetworkPassphrase = "Test SDF Network ; September 2015" ∧
      ch.ChallengeExpiresIn = 300000000000 ∧
      th.NetworkPassphrase = "Test SDF Network ; September 2015" ∧
      th.JWTExpiresIn = 600000000000 := by
  obtain ⟨mux, ch, th, hm, hr, h1, h2, h3, h4, _⟩ :=
    options_reach_handlers sampleEnv { sampleOpts with JWTExpiresIn := 600000000000 } rfl
  exact ⟨mux, ch, th, hm, hr, h1, h2, h3, h4⟩

/-- Counterexample to C7: with both sample keys valid and both durations
equal to minus one nanosecond, `handler` returns a router and a nil error, and
`Serve` starts the server on ":8000". -/
theorem negative_durations_are_accepted :
    negativeDurationOpts.ChallengeExpiresIn < 0 ∧ negativeDurationOpts.JWTExpiresIn < 0 ∧
    (handler sampleEnv negativeDurationOpts).2 = none ∧
    (handler sampleEnv negativeDurationOpts).1 ≠ none ∧
    ∃ conf, Serve sampleEnv negativeDurationOpts = [.Run conf] ∧ conf.ListenAddr = ":8000" := by
  refine ⟨by decide, by decide, rfl, ?_, ?_⟩
  · rw [handler_of_keys sampleEnv negativeDurationOpts rfl rfl]; simp
  · rw [Serve_of_ok sampleEnv negativeDurationOpts rfl]
    exact ⟨_, rfl, by decide⟩

/-- C7 as amended: `handler` returns an error exactly when `SigningKey` or
`JWTPrivateKey` fails to parse, and `Serve` keeps the server from starting
exactly then; the error result does not depend on `ChallengeExpiresIn` and
`JWTExpiresIn`, so with two keys that parse the server is started whatever the
two durations are, negative ones included. -/
theorem startup_fatal_only_for_keys (env : Env) (opts : Options) :
    ((handler env opts).2 ≠ none ↔
      ((∃ e, env.ParseFull opts.SigningKey = .error e) ∨
       (∃ e, env.PrivateKeyFromString opts.JWTPrivateKey = .error e))) ∧
    ((∀ eff ∈ Serve env opts, eff.isRun = false) ↔ (handler env opts).2 ≠ none) ∧
    (∀ c j : Int,
      (handler env { opts with ChallengeExpiresIn := c, JWTExpiresIn := j }).2 =
        (handler env opts).2) ∧
    (∀ c j : Int, (handler env opts).2 = none →
      ∃ conf, Serve env { opts with ChallengeExpiresIn := c, JWTExpiresIn := j } =
        [.Run conf]) := by
  have hind : ∀ c j : Int,
      (handler env { opts with ChallengeExpiresIn := c, JWTExpiresIn := j }).2 =
        (handler env opts).2 := by
    intro c j
    cases h1 : env.ParseFull opts.SigningKey with
    | error e =>
      rw [handler_of_signing_error env opts h1,
        handler_of_signing_error env
          { opts with ChallengeExpiresIn := c, JWTExpiresIn := j } h1]
    | ok kp =>
      cases h2 : env.PrivateKeyFromString opts.JWTPrivateKey with
      | error e =>
        rw [handler_of_jwt_error env opts h1 h2,
          handler_of_jwt_error env
          { opts with ChallengeExpiresIn := c, JWTExpiresIn := j } h1 h2]
      | ok k =>
        rw [handler_of_keys env opts h1 h2,
          handler_of_keys env
          { opts with ChallengeExpiresIn := c, JWTExpiresIn := j } h1 h2]
  refine ⟨handler_error_iff opts, ?_, hind, ?_⟩
  · constructor
    · intro hall hnone
      have := hall _ (by rw [Serve_of_ok env opts hnone]; exact List.mem_singleton.mpr rfl)
      simp [Effect.isRun] at this
    · intro hne eff heff
      cases herr : (handler env opts).2 with
      | none => exact absurd herr hne
      | some err =>
        rw [Serve_of_error herr] at heff
        simp at heff
        subst heff
        rfl
  · intro c j hnone
    exact ⟨_, Serve_of_ok env _ ((hind c j).trans hnone)⟩

/-- C9: when `sk` parses to a full keypair and `jwt` parses to a private key,
`handler` returns a non-nil handler and a nil error on every `Options` value
with these two keys, whatever the six other fields; and on every `Options`
value `handler` returns an error if and only if one of the two keys is
rejected. -/
theorem handler_ok_of_keys (env : Env) (sk jwt : String) (kp : env.Full) (k : env.PrivateKey)
    (h1 : env.ParseFull sk = .ok kp) (h2 : env.PrivateKeyFromString jwt = .ok k) :
    (∀ (logger : Nat) (url : String) (port : Int) (np : String) (c j : Int),
      ∃ mux, handler env
        { Logger := logger, HorizonURL := url, Port := port, NetworkPassphrase := np,
          SigningKey := sk, ChallengeExpiresIn := c, JWTPrivateKey := jwt,
          JWTExpiresIn := j } = (some mux, none)) ∧
    (∀ opts : Options, (handler env opts).2 ≠ none ↔
      ((∃ e, env.ParseFull opts.SigningKey = .error e) ∨
       (∃ e, env.PrivateKeyFromString opts.JWTPrivateKey = .error e))) := by
  refine ⟨fun logger url port np c j => ?_, fun opts => handler_error_iff opts⟩
  exact ⟨_, handler_of_keys env
          { Logger := logger, HorizonURL := url, Port := port, NetworkPassphrase := np,
               SigningKey := sk, ChallengeExpiresIn := c, JWTPrivateKey := jwt,
               JWTExpiresIn := j } h1 h2⟩

/-- Witness for C9: the sample keys with an empty Horizon URL, port 0, an empty
passphrase and zero durations. -/
theorem handler_ok_of_keys_witness :
    ∃ mux, handler sampleEnv
      { Logger := 0, HorizonURL := "", Port := 0, NetworkPassphrase := "",
        SigningKey := sampleOpts.SigningKey, ChallengeExpiresIn := 0,
        JWTPrivateKey := sampleOpts.JWTPrivateKey, JWTExpiresIn := 0 } = (some mux, none) :=
  (handler_ok_of_keys sampleEnv sampleOpts.SigningKey sampleOpts.JWTPrivateKey
    sampleOpts.SigningKey sampleOpts.JWTPrivateKey rfl rfl).1 0 "" 0 "" 0 0

/-- C10: when `handler` succeeds, the effects of `Serve` are exactly one call
of `supporthttp.Run`; its `ListenAddr` is ":" followed by the decimal rendering
of `opts.Port` (its digits, after a minus sign when it is negative), its
`Handler` is the (non-nil) handler that `handler(opts)` returned, and the start-up callback logs the banner and then "Listening on "
followed by that same `ListenAddr`. -/
theorem Serve_runs_on_port (env : Env) (opts : Options)
    (h : (handler env opts).2 = none) :
    ∃ conf, Serve env opts = [.Run conf] ∧
      ((Serve env opts).filter Effect.isRun).length = 1 ∧
      conf.ListenAddr = ":" ++ toString opts.Port ∧
      (∀ n : Nat, opts.Port = n → conf.ListenAddr = ":" ++ Nat.repr n) ∧
      (∀ n : Nat, opts.Port = -((n : Int) + 1) → conf.ListenAddr = ":-" ++ Nat.repr (n + 1)) ∧
      conf.Handler = (handler env opts).1 ∧ conf.Handler ≠ none ∧
      conf.OnStarting.map LogCall.text =
        ["Starting SEP-10 Web Authentication Server", "Listening on " ++ conf.ListenAddr] := by
  rw [Serve_of_ok env opts h]
  refine ⟨_, rfl, rfl, rfl, ?_, ?_, rfl, ?_, ?_⟩
  · intro n hn
    rw [hn]
    exact (listen_addr_digits n).1
  · intro n hn
    rw [hn]
    exact (listen_addr_digits n).2
  · obtain ⟨kp, k, h1, h2⟩ := keys_of_handler_ok h
    rw [handler_of_keys env opts h1 h2]; simp
  · simp [LogCall.text, Sprintf_listening]

/-- Witness for C10: port 8000 gives the listen address ":8000". -/
theorem Serve_runs_on_port_witness :
    sampleOpts.Port = 8000 ∧
    ∃ conf, Serve sampleEnv sampleOpts = [.Run conf] ∧ conf.ListenAddr = ":8000" ∧
      conf.OnStarting.map LogCall.text =
        ["Starting SEP-10 Web Authentication Server", "Listening on :8000"] := by
  refine ⟨rfl, ?_⟩
  obtain ⟨conf, hs, _, ha, _, _, _, _, hl⟩ := Serve_runs_on_port sampleEnv sampleOpts rfl
  have ha2 : conf.ListenAddr = ":8000" := by rw [ha]; decide
  refine ⟨conf, hs, ha2, ?_⟩
  rw [hl, ha2]
  decide

end Webauth
